import Mathlib

/-!
Shallow embedding of `src/Transcribe.py` (repository ss47tt/Transcribe): a
batch audio-preparation and transcription pipeline.  We model the audio
operations at the level of the observables the program manipulates (channel
count, peak level in dBFS, duration in milliseconds), segment timestamps as
rationals, and the orchestration of `process_files` as a function over an
explicit environment (user selection, pre-existing directory contents, and
per-file oracles for the fallible external operations).
-/

namespace Transcribe

/-- Model of a pydub `AudioSegment`, tracked by the observables the pipeline
reads or writes: channel count, peak level `max_dBFS` (in dBFS; `none` models
pydub's `-inf`, i.e. digital silence whose peak sample is 0), and duration in
milliseconds.  Gain arithmetic is additive in the dB domain, so it is exact
over `ℚ`. -/
structure AudioSeg where
  channels : Nat
  maxDBFS : Option ℚ
  durationMs : Nat
  deriving DecidableEq, Repr

/-- pydub `AudioSegment.apply_gain(g)`: multiplies every sample by
`10^(g/20)`, hence adds `g` to the peak level in dBFS (silence stays
silence). -/
def applyGain (a : AudioSeg) (g : ℚ) : AudioSeg :=
  { a with maxDBFS := a.maxDBFS.map (· + g) }

/-- `amplify_audio(audio, amplification_factor)` (Transcribe.py line 25-27):
`return audio.apply_gain(amplification_factor)`. -/
def amplify_audio (audio : AudioSeg) (amplificationFactor : ℚ) : AudioSeg :=
  applyGain audio amplificationFactor

/-- pydub `AudioSegment.set_channels(1)`: downmix to one channel.  Downmixing
averages channels, which can change the raw peak; every pipeline use is
immediately followed by `normalize`, which overwrites the peak, so the model
tracks only the channel count here. -/
def setChannelsOne (a : AudioSeg) : AudioSeg :=
  { a with channels := 1 }

/-- `stereo_to_mono(audio)` (Transcribe.py line 29-31):
`return audio.set_channels(1)`. -/
def stereo_to_mono (audio : AudioSeg) : AudioSeg :=
  setChannelsOne audio

/-- pydub's default `headroom` argument of `effects.normalize`: 0.1 dB. -/
def headroomDefault : ℚ := 1 / 10

/-- pydub `effects.normalize(seg, headroom=0.1)`: digital silence
(`seg.max == 0`) is returned unchanged; otherwise the segment is gained so
that its peak reaches `-headroom` dBFS. -/
def pydubNormalize (seg : AudioSeg) (headroom : ℚ) : AudioSeg :=
  match seg.maxDBFS with
  | none => seg
  | some _ => { seg with maxDBFS := some (-headroom) }

/-- `process_audio` (Transcribe.py line 33-48), audio-transform part: downmix
to mono, peak-normalize (default headroom), then
`amplification_factor = target_max_amplitude - audio.max_dBFS` and amplify
only when the factor is positive.  For silent input `normalize` is the
identity and the gain applied to all-zero samples leaves them zero. -/
def process_audio (audio : AudioSeg) (targetMaxAmplitude : ℚ) : AudioSeg :=
  let mono := stereo_to_mono audio
  let normed := pydubNormalize mono headroomDefault
  match normed.maxDBFS with
  | none => normed
  | some p =>
    let amplificationFactor := targetMaxAmplitude - p
    if amplificationFactor > 0 then amplify_audio normed amplificationFactor
    else normed

/-- pydub `AudioSegment.silent(duration=ms)`: a mono segment of digital
silence of the given duration (peak sample 0, `max_dBFS = -inf`). -/
def pydubSilent (ms : Nat) : AudioSeg :=
  { channels := 1, maxDBFS := none, durationMs := ms }

/-- Peak of a concatenation: the larger of the two peaks, with `-inf`
(silence) as the neutral element. -/
def peakMax : Option ℚ → Option ℚ → Option ℚ
  | none, q => q
  | p, none => p
  | some x, some y => some (max x y)

/-- pydub `AudioSegment.__add__` (append with no crossfade): `_sync` raises
both operands to the larger channel count, durations add, and the peak of the
result is the larger peak. -/
def segAppend (a b : AudioSeg) : AudioSeg :=
  { channels := max a.channels b.channels
    maxDBFS := peakMax a.maxDBFS b.maxDBFS
    durationMs := a.durationMs + b.durationMs }

/-- `add_silence` (Transcribe.py line 50-58), audio-transform part:
`silence = AudioSegment.silent(duration=silence_duration * 1000)` followed by
`padded_audio = silence + audio + silence`. -/
def add_silence (audio : AudioSeg) (silenceDuration : Nat) : AudioSeg :=
  let silence := pydubSilent (silenceDuration * 1000)
  segAppend (segAppend silence audio) silence

/-- A transcript segment as returned by the engine: start/end times in
seconds and the spoken text.  `stop` models the dictionary key `end`
(a reserved word in Lean). -/
structure TranscriptSegment where
  start : ℚ
  stop : ℚ
  text : String
  deriving DecidableEq, Repr

/-- Corrected start time (Transcribe.py line 71):
`start_time = max(segment["start"] - silence_duration, 0)`. -/
def correctedStart (seg : TranscriptSegment) (silenceDuration : ℚ) : ℚ :=
  max (seg.start - silenceDuration) 0

/-- Corrected end time (Transcribe.py line 72):
`end_time = max(segment["end"] - silence_duration, 0)`. -/
def correctedEnd (seg : TranscriptSegment) (silenceDuration : ℚ) : ℚ :=
  max (seg.stop - silenceDuration) 0

/-- Python `str.endswith`, modeled on the character list. -/
def strEndsWith (s t : String) : Bool :=
  t.data.isSuffixOf s.data

/-- The `filename.endswith(".wav")` test used at Transcribe.py lines 65, 87
and 96. -/
def isWavName (f : String) : Bool :=
  strEndsWith f ".wav"

/-- Per-file outcome of one task submitted to a batch stage's thread pool:
either an output file (named by its basename) was produced, or the file's
processing raised and the broad `except` inside the task caught it, printed
the error, and produced no output. -/
inductive StageResult where
  | ok : String → StageResult
  | err : String → StageResult
  deriving DecidableEq, Repr

/-- File-level behavior of `process_audio` (Transcribe.py lines 33-48): the
whole body is wrapped in `try/except Exception`, so a decode/encode failure
(oracle `wavOk f = false`) is caught and logged and no output file is
written; otherwise the processed audio is exported under the same basename. -/
def processAudioFile (wavOk : String → Bool) (f : String) : StageResult :=
  if wavOk f then .ok f else .err f

/-- File-level behavior of `add_silence` (Transcribe.py lines 50-58): same
`try/except Exception` containment, output written to the caller-supplied
path `temp_padded/<basename>`. -/
def addSilenceFile (ampOk : String → Bool) (f : String) : StageResult :=
  if ampOk f then .ok f else .err f

/-- The batch pattern of `process_files` (Transcribe.py lines 89-95 and
98-104): every file is submitted to the `ThreadPoolExecutor`, and
`future.result()` is awaited for every future inside its own `try/except`.
Each task is a pure function of its own input file, so the collection of
per-file results is modeled as the map of the per-file operation over the
submission list; totality of this function models that no exception escapes
the batch boundary. -/
def runBatch (op : String → StageResult) (files : List String) : List StageResult :=
  files.map op

/-- Transcript lines written for one file by `transcribe_audio`
(Transcribe.py lines 70-73): each engine segment, with start and end rewritten
by the timestamp correction, paired with its text. -/
def fileTranscript (segs : List TranscriptSegment) (silenceDuration : ℚ) :
    List (ℚ × ℚ × String) :=
  segs.map (fun seg =>
    (correctedStart seg silenceDuration, correctedEnd seg silenceDuration, seg.text))

/-- The loop of `transcribe_audio` (Transcribe.py lines 62-77).  The
`try/except` wraps the WHOLE `for` loop: when `model.transcribe` raises on
one file (oracle returns `none`), control leaves the loop, the error is
printed at line 77, and no later file is processed; transcripts already
written for earlier files remain on disk.  The function always returns (the
exception never escapes `transcribe_audio`). -/
def transcribe_audio (whisperResult : String → Option (List TranscriptSegment))
    (files : List String) (silenceDuration : ℚ) :
    List (String × List (ℚ × ℚ × String)) :=
  match files with
  | [] => []
  | f :: rest =>
    match whisperResult f with
    | none => []
    | some segs =>
      (f, fileTranscript segs silenceDuration) ::
        transcribe_audio whisperResult rest silenceDuration

/-- Environment of one `process_files` run: the user's selection (basenames
of the chosen `.wav` files; `shutil.copy` preserves the basename), the
pre-existing contents of the persistent working directories (`wav/`,
`amplified_wav/`, `temp_padded/` are created with `exist_ok=True` at startup
and never cleaned), and oracles for the fallible external operations:
whether `AudioSegment.from_wav` succeeds on a working copy (`wavOk`) or an
amplified copy (`ampOk`), the outcome of `whisper.load_model`, and the
engine's per-file transcription result (`none` = the engine call raised). -/
structure RunEnv where
  selection : List String
  wav0 : List String
  amp0 : List String
  pad0 : List String
  wavOk : String → Bool
  ampOk : String → Bool
  modelLoad : Except String Unit
  whisperResult : String → Option (List TranscriptSegment)

/-- The user-visible dialog `process_files` ends with: the "No files"
warning (line 83), the model-load error box (line 108), or the success
info box (line 111). -/
inductive RunOutcome where
  | noFilesWarning : RunOutcome
  | modelLoadError : String → RunOutcome
  | success : RunOutcome
  deriving DecidableEq, Repr

/-- Observable result of one `process_files` run: the final dialog, the
final contents of the working directories, the input lists and per-file
results of the two batch stages, whether `whisper.load_model` was invoked,
and the transcripts written. -/
structure RunResult where
  outcome : RunOutcome
  wavDir : List String
  ampDir : List String
  padDir : List String
  normInputs : List String
  normResults : List StageResult
  padInputs : List String
  padResults : List StageResult
  modelLoadAttempted : Bool
  transcripts : List (String × List (ℚ × ℚ × String))

/-- `wav/` after the copy loop (Transcribe.py lines 85-86): the pre-existing
contents plus the selection's basenames (`shutil.copy` overwrites an existing
file of the same name, so directory contents are a set; `dedup` keeps one
entry per name). -/
def wavAfterCopy (env : RunEnv) : List String :=
  (env.wav0 ++ env.selection).dedup

/-- The files fed to the normalization stage (Transcribe.py line 87):
ALL `.wav` entries of the persistent `wav/` directory after copying — not
just the files copied this run. -/
def normStageInputs (env : RunEnv) : List String :=
  (wavAfterCopy env).filter (fun f => isWavName f)

/-- `amplified_wav/` after the normalization batch: pre-existing contents
plus one output per successfully processed file, same basename. -/
def ampAfterStage (env : RunEnv) : List String :=
  (env.amp0 ++ (normStageInputs env).filter env.wavOk).dedup

/-- The files fed to the padding stage (Transcribe.py line 96): all `.wav`
entries of `amplified_wav/`. -/
def padStageInputs (env : RunEnv) : List String :=
  (ampAfterStage env).filter (fun f => isWavName f)

/-- `temp_padded/` after the padding batch: pre-existing contents plus one
output per successfully padded file, same basename (the output path is
`temp_padded/<basename>`, line 99). -/
def padAfterStage (env : RunEnv) : List String :=
  (env.pad0 ++ (padStageInputs env).filter env.ampOk).dedup

/-- The files the transcription loop iterates over (Transcribe.py lines
64-65): all `.wav` entries of `temp_padded/`. -/
def transcribeStageInputs (env : RunEnv) : List String :=
  (padAfterStage env).filter (fun f => isWavName f)

/-- `process_files` (Transcribe.py lines 79-111): empty selection shows a
warning and returns before any work; otherwise copy, run the two batch
stages, load the model (on failure show the error box and return without
transcribing), transcribe, and show the success box.  `transcribe_audio`
catches every exception internally, so the success box at line 111 is always
reached once the model loads. -/
def process_files (env : RunEnv) (silenceDuration : ℚ) : RunResult :=
  if env.selection.isEmpty then
    { outcome := .noFilesWarning
      wavDir := env.wav0, ampDir := env.amp0, padDir := env.pad0
      normInputs := [], normResults := [], padInputs := [], padResults := []
      modelLoadAttempted := false, transcripts := [] }
  else
    match env.modelLoad with
    | .error e =>
      { outcome := .modelLoadError e
        wavDir := wavAfterCopy env, ampDir := ampAfterStage env
        padDir := padAfterStage env
        normInputs := normStageInputs env
        normResults := runBatch (processAudioFile env.wavOk) (normStageInputs env)
        padInputs := padStageInputs env
        padResults := runBatch (addSilenceFile env.ampOk) (padStageInputs env)
        modelLoadAttempted := true, transcripts := [] }
    | .ok _ =>
      { outcome := .success
        wavDir := wavAfterCopy env, ampDir := ampAfterStage env
        padDir := padAfterStage env
        normInputs := normStageInputs env
        normResults := runBatch (processAudioFile env.wavOk) (normStageInputs env)
        padInputs := padStageInputs env
        padResults := runBatch (addSilenceFile env.ampOk) (padStageInputs env)
        modelLoadAttempted := true
        transcripts :=
          transcribe_audio env.whisperResult (transcribeStageInputs env)
            silenceDuration }

/-- `success` test on a `StageResult`. -/
def StageResult.isOk : StageResult → Bool
  | .ok _ => true
  | .err _ => false

/-- `failure` test on a `StageResult`. -/
def StageResult.isErr : StageResult → Bool
  | .ok _ => false
  | .err _ => true

/-- A batch of three working copies of which exactly the middle one is a
corrupt WAV (used to instantiate the batch-isolation theorem). -/
def demoBatchFiles : List String :=
  ["a.wav", "bad.wav", "b.wav"]

/-- Decode oracle under which exactly `bad.wav` raises in
`AudioSegment.from_wav`. -/
def demoWavOk (f : String) : Bool :=
  f != "bad.wav"

/-- A run on two fresh files where the engine raises on the first padded
file (`a.wav`) and would succeed on the second (`b.wav`). -/
def runFirstFails : RunEnv :=
  { selection := ["a.wav", "b.wav"]
    wav0 := [], amp0 := [], pad0 := []
    wavOk := fun _ => true
    ampOk := fun _ => true
    modelLoad := .ok ()
    whisperResult := fun f =>
      if f = "a.wav" then none else some [{ start := 31, stop := 32, text := "hi" }] }

/-- A run on two fresh files where the engine succeeds on the first padded
file and raises on the second. -/
def runSecondFails : RunEnv :=
  { selection := ["a.wav", "b.wav"]
    wav0 := [], amp0 := [], pad0 := []
    wavOk := fun _ => true
    ampOk := fun _ => true
    modelLoad := .ok ()
    whisperResult := fun f =>
      if f = "b.wav" then none else some [{ start := 31, stop := 32, text := "hi" }] }

/-- A run whose working directory still holds `old.wav` from an earlier run
while the user selects only `new.wav`. -/
def runWithLeftover : RunEnv :=
  { selection := ["new.wav"]
    wav0 := ["old.wav"], amp0 := [], pad0 := []
    wavOk := fun _ => true
    ampOk := fun _ => true
    modelLoad := .ok ()
    whisperResult := fun _ => some [] }

/-- A run with an empty file selection. -/
def runEmptySelection : RunEnv :=
  { selection := []
    wav0 := ["stale.wav"], amp0 := ["stale2.wav"], pad0 := []
    wavOk := fun _ => true
    ampOk := fun _ => true
    modelLoad := .ok ()
    whisperResult := fun _ => some [] }

/-- A run where `whisper.load_model` raises. -/
def runLoadFails : RunEnv :=
  { selection := ["a.wav"]
    wav0 := [], amp0 := [], pad0 := []
    wavOk := fun _ => true
    ampOk := fun _ => true
    modelLoad := .error "model file missing"
    whisperResult := fun _ => some [] }

lemma process_audio_of_some (a : AudioSeg) (t p : ℚ) (h : a.maxDBFS = some p) :
    process_audio a t =
      if t - -headroomDefault > 0 then
        amplify_audio (pydubNormalize (stereo_to_mono a) headroomDefault)
          (t - -headroomDefault)
      else pydubNormalize (stereo_to_mono a) headroomDefault := by
  simp [process_audio, stereo_to_mono, setChannelsOne, pydubNormalize, h]

lemma process_audio_peak (a : AudioSeg) (t p : ℚ) (h : a.maxDBFS = some p) :
    (process_audio a t).maxDBFS = some (max (-headroomDefault) t) := by
  rw [process_audio_of_some a t p h]
  split_ifs with hgt
  · simp [amplify_audio, applyGain, pydubNormalize, stereo_to_mono, setChannelsOne, h]
    linarith
  · simp [pydubNormalize, stereo_to_mono, setChannelsOne, h]
    linarith

lemma runBatch_ok_err_count (op : String → StageResult) (files : List String) :
    (runBatch op files).countP StageResult.isOk
      + (runBatch op files).countP StageResult.isErr = files.length := by
  induction files with
  | nil => rfl
  | cons f rest ih =>
    have hstep : runBatch op (f :: rest) = op f :: runBatch op rest := rfl
    rw [hstep, List.countP_cons, List.countP_cons, List.length_cons]
    cases hop : op f <;>
      simp [StageResult.isOk, StageResult.isErr] <;> omega

lemma transcribe_audio_stops (oracle : String → Option (List TranscriptSegment)) (s : ℚ) :
    ∀ (pre : List String) (f : String) (rest : List String),
      (∀ g ∈ pre, (oracle g).isSome) → oracle f = none →
      transcribe_audio oracle (pre ++ f :: rest) s =
        pre.map (fun g => (g, fileTranscript ((oracle g).getD []) s)) := by
  intro pre
  induction pre with
  | nil =>
    intro f rest _ hf
    simp [transcribe_audio, hf]
  | cons g pre ih =>
    intro f rest hpre hf
    have hg : (oracle g).isSome := hpre g (List.mem_cons_self g pre)
    obtain ⟨segs, hsegs⟩ := Option.isSome_iff_exists.mp hg
    have hcons : transcribe_audio oracle ((g :: pre) ++ f :: rest) s
        = (g, fileTranscript segs s) :: transcribe_audio oracle (pre ++ f :: rest) s := by
      simp [transcribe_audio, hsegs]
    rw [hcons, ih f rest (fun x hx => hpre x (List.mem_cons_of_mem g hx)) hf]
    simp [hsegs]

lemma process_files_of_ok (env : RunEnv) (s : ℚ)
    (hsel : env.selection.isEmpty = false) (hload : env.modelLoad = Except.ok ()) :
    process_files env s =
      { outcome := .success
        wavDir := wavAfterCopy env, ampDir := ampAfterStage env
        padDir := padAfterStage env
        normInputs := normStageInputs env
        normResults := runBatch (processAudioFile env.wavOk) (normStageInputs env)
        padInputs := padStageInputs env
        padResults := runBatch (addSilenceFile env.ampOk) (padStageInputs env)
        modelLoadAttempted := true
        transcripts :=
          transcribe_audio env.whisperResult (transcribeStageInputs env) s } := by
  rw [process_files, hload]
  simp [hsel]

lemma process_files_of_error (env : RunEnv) (s : ℚ) (e : String)
    (hsel : env.selection.isEmpty = false) (hload : env.modelLoad = Except.error e) :
    process_files env s =
      { outcome := .modelLoadError e
        wavDir := wavAfterCopy env, ampDir := ampAfterStage env
        padDir := padAfterStage env
        normInputs := normStageInputs env
        normResults := runBatch (processAudioFile env.wavOk) (normStageInputs env)
        padInputs := padStageInputs env
        padResults := runBatch (addSilenceFile env.ampOk) (padStageInputs env)
        modelLoadAttempted := true
        transcripts := [] } := by
  rw [process_files, hload]
  simp [hsel]

lemma process_files_normInputs (env : RunEnv) (s : ℚ)
    (hsel : env.selection.isEmpty = false) :
    (process_files env s).normInputs = normStageInputs env := by
  rw [process_files]
  simp only [hsel, Bool.false_eq_true, if_false]
  cases hm : env.modelLoad <;> rfl

/-- C1: for every transcript segment and silence duration `s`, the corrected
start time is `max(segment.start - s, 0)` and the corrected end time is
`max(segment.end - s, 0)`; correcting the segment with start 35.0 and end
40.0 by 30 seconds gives start 5.0 and end 10.0; and whenever
`segment.start < s` the corrected start is exactly 0. -/
theorem timestamp_correction_spec :
    (∀ (seg : TranscriptSegment) (s : ℚ),
      correctedStart seg s = max (seg.start - s) 0 ∧
      correctedEnd seg s = max (seg.stop - s) 0) ∧
    (correctedStart { start := 35, stop := 40, text := "x" } 30 = 5 ∧
      correctedEnd { start := 35, stop := 40, text := "x" } 30 = 10) ∧
    (∀ (seg : TranscriptSegment) (s : ℚ), seg.start < s → correctedStart seg s = 0) := by
  refine ⟨fun seg s => ⟨rfl, rfl⟩, ⟨?_, ?_⟩, fun seg s h => ?_⟩
  · show max ((35 : ℚ) - 30) 0 = 5
    rw [show ((35 : ℚ) - 30) = 5 by norm_num]
    exact max_eq_left (by norm_num)
  · show max ((40 : ℚ) - 30) 0 = 10
    rw [show ((40 : ℚ) - 30) = 10 by norm_num]
    exact max_eq_left (by norm_num)
  · exact max_eq_right (by linarith)

/-- Witness for C1: a segment starting inside the silence
(`start = 10 < 30`) is floored to 0. -/
theorem timestamp_correction_spec_witness :
    correctedStart { start := 10, stop := 12, text := "" } 30 = 0 :=
  timestamp_correction_spec.2.2 { start := 10, stop := 12, text := "" } 30 (by norm_num)

/-- C10: timestamp correction preserves ordering: if `segment.start ≤
segment.end` and the silence duration is nonnegative, the corrected start is
at most the corrected end. -/
theorem correction_preserves_order :
    ∀ (seg : TranscriptSegment) (s : ℚ),
      seg.start ≤ seg.stop → 0 ≤ s →
      correctedStart seg s ≤ correctedEnd seg s := by
  intro seg s h _
  simp only [correctedStart, correctedEnd]
  exact max_le_max (by linarith) le_rfl

/-- Witness for C10 at the segment `start = 1, end = 2` with 30 seconds of
silence. -/
theorem correction_preserves_order_witness :
    correctedStart { start := 1, stop := 2, text := "t" } 30 ≤
      correctedEnd { start := 1, stop := 2, text := "t" } 30 :=
  correction_preserves_order { start := 1, stop := 2, text := "t" } 30
    (by norm_num) (by norm_num)

/-- C6: the padder produces `silence + audio + silence` with each silent
segment exactly `s` seconds (`s * 1000` ms) long, so the padded duration is
the original duration plus `2 * s` seconds. -/
theorem padding_duration_invariant :
    ∀ (audio : AudioSeg) (s : Nat),
      add_silence audio s =
        segAppend (segAppend (pydubSilent (s * 1000)) audio) (pydubSilent (s * 1000)) ∧
      (add_silence audio s).durationMs = audio.durationMs + 2 * (s * 1000) := by
  intro a s
  refine ⟨rfl, ?_⟩
  simp only [add_silence, segAppend, pydubSilent]
  omega

/-- C4: the normalizer downmixes, peak-normalizes the downmixed signal,
computes `gain = target - (peak of the normalized signal)`, applies the gain
only when it is positive, and emits the normalized signal untouched when the
gain is not positive.  Stated for non-silent input (`max_dBFS` finite). -/
theorem normalizer_order_and_conditional_gain :
    ∀ (audio : AudioSeg) (target p : ℚ), audio.maxDBFS = some p →
      ∃ np,
        (pydubNormalize (stereo_to_mono audio) headroomDefault).maxDBFS = some np ∧
        (target - np > 0 →
          process_audio audio target =
            amplify_audio (pydubNormalize (stereo_to_mono audio) headroomDefault)
              (target - np)) ∧
        (target - np ≤ 0 →
          process_audio audio target =
            pydubNormalize (stereo_to_mono audio) headroomDefault) := by
  intro a t p h
  refine ⟨-headroomDefault, ?_, ?_, ?_⟩
  · simp [pydubNormalize, stereo_to_mono, setChannelsOne, h]
  · intro hgt
    rw [process_audio_of_some a t p h, if_pos hgt]
  · intro hle
    rw [process_audio_of_some a t p h, if_neg (by linarith)]

/-- Witness for C4 at a stereo asset peaking at -6 dBFS and the program's
-3 dBFS target. -/
theorem normalizer_order_and_conditional_gain_witness :
    ∃ np,
      (pydubNormalize (stereo_to_mono { channels := 2, maxDBFS := some (-6), durationMs := 5000 })
        headroomDefault).maxDBFS = some np ∧
      ((-3 : ℚ) - np > 0 →
        process_audio { channels := 2, maxDBFS := some (-6), durationMs := 5000 } (-3) =
          amplify_audio
            (pydubNormalize
              (stereo_to_mono { channels := 2, maxDBFS := some (-6), durationMs := 5000 })
              headroomDefault) ((-3) - np)) ∧
      ((-3 : ℚ) - np ≤ 0 →
        process_audio { channels := 2, maxDBFS := some (-6), durationMs := 5000 } (-3) =
          pydubNormalize
            (stereo_to_mono { channels := 2, maxDBFS := some (-6), durationMs := 5000 })
            headroomDefault) :=
  normalizer_order_and_conditional_gain
    { channels := 2, maxDBFS := some (-6), durationMs := 5000 } (-3) (-6) rfl

/-- Counterexample to C5 as stated: on a (non-silent) stereo asset peaking at
-6 dBFS, with the program's target of -3 dBFS, the emitted peak is -0.1 dBFS
(pydub's normalization headroom), which EXCEEDS the target. -/
theorem output_peak_exceeds_target_cex :
    (process_audio { channels := 2, maxDBFS := some (-6), durationMs := 5000 } (-3)).maxDBFS
      = some (-(1 / 10) : ℚ) ∧ (-(1 / 10) : ℚ) > -3 := by
  constructor
  · rw [process_audio_peak _ _ (-6) rfl]
    rw [show max (-headroomDefault) (-3 : ℚ) = -(1 / 10) from by
      rw [headroomDefault]; exact max_eq_left (by norm_num)]
  · norm_num

/-- C5 amended: the output peak equals `max(normalized peak, target)` — it
stays at the normalized peak (pydub's -0.1 dBFS headroom) whenever that peak
is already at or above the target, in which case the output is the
normalized signal unchanged; it only equals the target when amplification
was applied.  Stated for non-silent input. -/
theorem output_peak_is_max_of_normalized_and_target :
    ∀ (audio : AudioSeg) (target p : ℚ), audio.maxDBFS = some p →
      ∃ np,
        (pydubNormalize (stereo_to_mono audio) headroomDefault).maxDBFS = some np ∧
        (process_audio audio target).maxDBFS = some (max np target) ∧
        (np ≥ target →
          process_audio audio target =
            pydubNormalize (stereo_to_mono audio) headroomDefault) := by
  intro a t p h
  refine ⟨-headroomDefault, ?_, ?_, ?_⟩
  · simp [pydubNormalize, stereo_to_mono, setChannelsOne, h]
  · exact process_audio_peak a t p h
  · intro hge
    rw [process_audio_of_some a t p h, if_neg (by linarith)]

/-- Witness for the amended C5 at a mono asset peaking at -20 dBFS with
target -3 dBFS. -/
theorem output_peak_is_max_witness :
    ∃ np,
      (pydubNormalize (stereo_to_mono { channels := 1, maxDBFS := some (-20), durationMs := 800 })
        headroomDefault).maxDBFS = some np ∧
      (process_audio { channels := 1, maxDBFS := some (-20), durationMs := 800 } (-3)).maxDBFS
        = some (max np (-3)) ∧
      (np ≥ -3 →
        process_audio { channels := 1, maxDBFS := some (-20), durationMs := 800 } (-3) =
          pydubNormalize
            (stereo_to_mono { channels := 1, maxDBFS := some (-20), durationMs := 800 })
            headroomDefault) :=
  output_peak_is_max_of_normalized_and_target
    { channels := 1, maxDBFS := some (-20), durationMs := 800 } (-3) (-20) rfl

/-- C2: when exactly one of the files submitted to a batch stage fails, the
stage still yields one result per input file, in submission order (so every
file's operation is attempted and none is skipped or cancelled), with
exactly one failure and N-1 successes; totality of `runBatch` embeds that no
exception crosses the batch boundary. -/
theorem batch_isolation :
    ∀ (wavOk : String → Bool) (files : List String),
      files.countP (fun f => !wavOk f) = 1 →
      (runBatch (processAudioFile wavOk) files).length = files.length ∧
      (runBatch (processAudioFile wavOk) files).countP StageResult.isErr = 1 ∧
      (runBatch (processAudioFile wavOk) files).countP StageResult.isOk
        = files.length - 1 ∧
      ∀ i : Nat,
        (runBatch (processAudioFile wavOk) files)[i]? =
          (files[i]?).map (processAudioFile wavOk) := by
  intro wavOk files h
  have hcomp : (fun f => StageResult.isErr (processAudioFile wavOk f))
      = fun f => !wavOk f := by
    funext f
    by_cases hf : wavOk f <;> simp [processAudioFile, StageResult.isErr, hf]
  have herr : (runBatch (processAudioFile wavOk) files).countP StageResult.isErr
      = files.countP (fun f => !wavOk f) := by
    rw [runBatch, List.countP_map]
    rw [show StageResult.isErr ∘ processAudioFile wavOk
        = fun f => StageResult.isErr (processAudioFile wavOk f) from rfl, hcomp]
  refine ⟨by simp [runBatch], by rw [herr, h], ?_, ?_⟩
  · have hsum := runBatch_ok_err_count (processAudioFile wavOk) files
    rw [herr, h] at hsum
    omega
  · intro i
    simp [runBatch]

/-- Witness for C2: three working copies of which only `bad.wav` is corrupt. -/
theorem batch_isolation_witness :
    (runBatch (processAudioFile demoWavOk) demoBatchFiles).length = demoBatchFiles.length ∧
    (runBatch (processAudioFile demoWavOk) demoBatchFiles).countP StageResult.isErr = 1 ∧
    (runBatch (processAudioFile demoWavOk) demoBatchFiles).countP StageResult.isOk
      = demoBatchFiles.length - 1 ∧
    ∀ i : Nat,
      (runBatch (processAudioFile demoWavOk) demoBatchFiles)[i]? =
        (demoBatchFiles[i]?).map (processAudioFile demoWavOk) :=
  batch_isolation demoWavOk demoBatchFiles (by decide)

/-- Counterexample to C3 as stated: in the run `runFirstFails` the engine
raises on the first padded file `a.wav` while `b.wav` is padded and would
transcribe fine, yet NO transcript at all is produced (the `try` wraps the
whole loop, so the failure aborts the remaining files); the success
notification is still shown. -/
theorem transcription_abort_cex :
    (process_files runFirstFails 30).outcome = RunOutcome.success ∧
    "b.wav" ∈ transcribeStageInputs runFirstFails ∧
    (runFirstFails.whisperResult "b.wav").isSome = true ∧
    (process_files runFirstFails 30).transcripts = [] := by
  decide

/-- C3 amended: a failure transcribing one padded file is caught at the
stage level (so the run still reaches the success notification), but the
loop stops there: the failing file and every padded file after it are
skipped; only the files transcribed before the failure keep their
transcripts. -/
theorem transcription_failure_stops_loop :
    ∀ (env : RunEnv) (s : ℚ) (pre : List String) (f : String) (rest : List String),
      env.selection.isEmpty = false →
      env.modelLoad = Except.ok () →
      transcribeStageInputs env = pre ++ f :: rest →
      (∀ g ∈ pre, (env.whisperResult g).isSome) →
      env.whisperResult f = none →
      (process_files env s).outcome = RunOutcome.success ∧
      (process_files env s).transcripts =
        pre.map (fun g => (g, fileTranscript ((env.whisperResult g).getD []) s)) := by
  intro env s pre f rest hsel hload hin hpre hf
  rw [process_files_of_ok env s hsel hload]
  refine ⟨rfl, ?_⟩
  show transcribe_audio env.whisperResult (transcribeStageInputs env) s = _
  rw [hin]
  exact transcribe_audio_stops env.whisperResult s pre f rest hpre hf

/-- Witness for the amended C3: in `runSecondFails` the engine succeeds on
`a.wav` and raises on `b.wav`; only `a.wav` keeps its transcript and the
success notification is shown. -/
theorem transcription_failure_stops_loop_witness :
    (process_files runSecondFails 30).outcome = RunOutcome.success ∧
    (process_files runSecondFails 30).transcripts =
      ["a.wav"].map
        (fun g => (g, fileTranscript ((runSecondFails.whisperResult g).getD []) 30)) :=
  transcription_failure_stops_loop runSecondFails 30 ["a.wav"] "b.wav" []
    rfl rfl (by decide) (by decide) (by decide)

/-- Counterexample to C7 as stated: in the run `runWithLeftover` the user
selects only `new.wav`, but `old.wav` — left in the persistent `wav/`
directory by an earlier run — is also fed to the normalization stage. -/
theorem leftover_enters_pipeline_cex :
    "old.wav" ∈ (process_files runWithLeftover 30).normInputs ∧
    "old.wav" ∉ runWithLeftover.selection := by
  decide

/-- C7 amended: the files fed to normalization are exactly the `.wav`
entries of the persistent working directory after copying — the run's
selection plus any `.wav` files already present from earlier runs; the
membership collapses to exactly the selection only when the working
directory holds no `.wav` file at run start and every selected name ends in
`.wav`. -/
theorem norm_inputs_are_dir_wavs :
    ∀ (env : RunEnv) (s : ℚ), env.selection.isEmpty = false →
      (∀ f, f ∈ (process_files env s).normInputs ↔
        ((f ∈ env.wav0 ∨ f ∈ env.selection) ∧ isWavName f = true)) ∧
      ((∀ f ∈ env.wav0, isWavName f = false) →
       (∀ f ∈ env.selection, isWavName f = true) →
       ∀ f, f ∈ (process_files env s).normInputs ↔ f ∈ env.selection) := by
  intro env s hsel
  have hchar : ∀ f, f ∈ (process_files env s).normInputs ↔
      ((f ∈ env.wav0 ∨ f ∈ env.selection) ∧ isWavName f = true) := by
    intro f
    rw [process_files_normInputs env s hsel]
    simp [normStageInputs, wavAfterCopy, List.mem_filter, List.mem_dedup,
      List.mem_append]
  refine ⟨hchar, fun h0 h1 f => ?_⟩
  rw [hchar f]
  constructor
  · rintro ⟨hor, hw⟩
    rcases hor with h | h
    · exact absurd hw (by simp [h0 f h])
    · exact h
  · intro h
    exact ⟨Or.inr h, h1 f h⟩

/-- Witness for the amended C7: a fresh run (`runFirstFails` starts with
empty working directories) feeds exactly the two selected files to
normalization. -/
theorem norm_inputs_are_dir_wavs_witness :
    (∀ f, f ∈ (process_files runFirstFails 30).normInputs ↔
      ((f ∈ runFirstFails.wav0 ∨ f ∈ runFirstFails.selection) ∧ isWavName f = true)) ∧
    ((∀ f ∈ runFirstFails.wav0, isWavName f = false) →
     (∀ f ∈ runFirstFails.selection, isWavName f = true) →
     ∀ f, f ∈ (process_files runFirstFails 30).normInputs ↔ f ∈ runFirstFails.selection) :=
  norm_inputs_are_dir_wavs runFirstFails 30 rfl

/-- C8: with an empty selection the run shows the "No files" warning and
stops before doing anything: no copy, no batch stage, no model load, no
transcript, and the working directories are untouched. -/
theorem empty_selection_no_run :
    ∀ (env : RunEnv) (s : ℚ), env.selection = [] →
      process_files env s =
        { outcome := .noFilesWarning
          wavDir := env.wav0, ampDir := env.amp0, padDir := env.pad0
          normInputs := [], normResults := [], padInputs := [], padResults := []
          modelLoadAttempted := false, transcripts := [] } := by
  intro env s h
  rw [process_files]
  simp [h]

/-- Witness for C8 at the concrete empty-selection run. -/
theorem empty_selection_no_run_witness :
    process_files runEmptySelection 30 =
      { outcome := .noFilesWarning
        wavDir := runEmptySelection.wav0, ampDir := runEmptySelection.amp0
        padDir := runEmptySelection.pad0
        normInputs := [], normResults := [], padInputs := [], padResults := []
        modelLoadAttempted := false, transcripts := [] } :=
  empty_selection_no_run runEmptySelection 30 rfl

/-- C9: if `whisper.load_model` fails, the run ends with the user-visible
model-load error box, no transcript is produced, and the success
notification is never shown. -/
theorem model_load_failure_no_transcription :
    ∀ (env : RunEnv) (s : ℚ) (e : String),
      env.selection.isEmpty = false →
      env.modelLoad = Except.error e →
      (process_files env s).outcome = RunOutcome.modelLoadError e ∧
      (process_files env s).transcripts = [] ∧
      (process_files env s).outcome ≠ RunOutcome.success := by
  intro env s e hsel hload
  rw [process_files_of_error env s e hsel hload]
  exact ⟨rfl, rfl, by simp⟩

/-- Witness for C9 at the concrete run whose model load raises. -/
theorem model_load_failure_no_transcription_witness :
    (process_files runLoadFails 30).outcome = RunOutcome.modelLoadError "model file missing" ∧
    (process_files runLoadFails 30).transcripts = [] ∧
    (process_files runLoadFails 30).outcome ≠ RunOutcome.success :=
  model_load_failure_no_transcription runLoadFails 30 "model file missing" rfl rfl

end Transcribe
